import Mathlib

set_option autoImplicit false

/-! Shallow embedding of the Nightingale API gateway (Go/Gin) request
pipeline: the symbolic JWT token service (`pkg/jwt/jwt.go`), the auth
middleware, outbound header construction of the forwarder and reverse
proxy (`internal/proxy/proxy.go`), the Redis-backed rate limiters with
their in-process fallback (`internal/middleware/rate_limit.go`), and the
patients handlers with their response cache (`internal/handlers`). -/

namespace Gateway

/-! ## HTTP headers (Go `http.Header`) -/

/-- HTTP headers as an ordered list of (canonical-key, value) entries,
mirroring Go `http.Header` viewed as a multimap. -/
abbrev Headers := List (String × String)

/-- Go `http.Header.Add`: appends one more value for the key. -/
def headerAdd (h : Headers) (k v : String) : Headers := h ++ [(k, v)]

/-- Go `http.Header.Set`: replaces all values of the key with the one value. -/
def headerSet (h : Headers) (k v : String) : Headers :=
  h.filter (fun p => p.1 != k) ++ [(k, v)]

/-- Go `http.Header.Values`: every value stored for the key, in order. -/
def headerValues (h : Headers) (k : String) : List String :=
  (h.filter (fun p => p.1 == k)).map Prod.snd

/-- The nested header copy loop of the proxy code:
`for key, values := range src { for _, value := range values { dst.Add(key, value) } }`. -/
def copyHeaders (dst src : Headers) : Headers :=
  src.foldl (fun acc p => headerAdd acc p.1 p.2) dst

/-! ## Forwarder and reverse proxy (internal/proxy/proxy.go) -/

/-- Outbound headers built by `Proxy.ForwardRequest`: a fresh request, all
inbound headers copied over with `Add`, then `X-User-Id` overlaid with
`Set` when the gin context carries `user_id`.  The source sets no
`X-User-Role` header on this path. -/
def forwardRequestHeaders (inbound : Headers) (ctxUserId : Option String) : Headers :=
  let h := copyHeaders [] inbound
  match ctxUserId with
  | some uid => headerSet h "X-User-Id" uid
  | none => h

/-- Outbound headers built by the `ReverseProxy` director: the cloned
inbound headers, the forwarding headers `Set`, the inbound headers
`Add`-ed once more, then `X-User-Id`, `X-User-Role` and `X-Request-Id`
overlaid with `Set` from whatever the gin context carries. -/
def reverseProxyHeaders (inbound : Headers) (clientIP host : String)
    (ctxUserId ctxUserRole ctxRequestId : Option String) : Headers :=
  let h := inbound
  let h := headerSet h "X-Forwarded-For" clientIP
  let h := headerSet h "X-Forwarded-Host" host
  let h := headerSet h "X-Real-Ip" clientIP
  let h := copyHeaders h inbound
  let h := match ctxUserId with | some uid => headerSet h "X-User-Id" uid | none => h
  let h := match ctxUserRole with | some r => headerSet h "X-User-Role" r | none => h
  match ctxRequestId with | some rid => headerSet h "X-Request-Id" rid | none => h

/-! ## JWT token service (pkg/jwt/jwt.go), symbolic model

HMAC-SHA256 is modelled as an ideal MAC: a signature is the exact pair of
the signing secret and the signed content, so verification succeeds for
precisely the secret and content that produced it. -/

/-- JWT signing algorithm named in the token header. -/
inductive Alg where
  | HS256 | HS384 | HS512 | RS256
deriving DecidableEq, Repr

/-- The keyfunc check `token.Method.(*jwt.SigningMethodHMAC)`. -/
def Alg.isHMAC : Alg → Bool
  | .HS256 | .HS384 | .HS512 => true
  | .RS256 => false

/-- The serialized claim set of a token.  `Claims` of the source embeds
`jwt.RegisteredClaims`, so an access token also carries a (there empty)
`sub`, and a refresh token carries empty `user_id`/`email`/`role`; times
are unix seconds. -/
structure Payload where
  user_id : String
  email : String
  role : String
  sub : String
  iat : Nat
  exp : Nat
deriving DecidableEq, Repr

/-- An ideal-MAC signature: determined by the signing secret and the
signed header (alg) and payload. -/
structure Sig where
  secret : String
  signedPayload : Payload
  signedAlg : Alg
deriving DecidableEq, Repr

/-- A signed JWT. -/
structure Token where
  alg : Alg
  payload : Payload
  sig : Sig
deriving DecidableEq, Repr

/-- `token.SignedString(secret)` after `jwt.NewWithClaims(alg, claims)`. -/
def signToken (secret : String) (alg : Alg) (p : Payload) : Token :=
  ⟨alg, p, ⟨secret, p, alg⟩⟩

/-- The error values of pkg/jwt: `ErrInvalidToken` ("invalid token") and
`ErrExpiredToken` ("token has expired"). -/
inductive JwtError where
  | invalidToken
  | expiredToken
deriving DecidableEq, Repr

/-- `jwt.Manager`: the configured signing secret and access-token TTL
(seconds). -/
structure Manager where
  secret : String
  expiration : Nat
deriving DecidableEq, Repr

/-- The caller-supplied part of `jwt.Claims` (GenerateToken fills in the
registered time claims itself). -/
structure ClaimsIn where
  user_id : String
  email : String
  role : String
  sub : String
deriving DecidableEq, Repr

/-- `Manager.GenerateToken`: sets `iat := now`, `exp := now + expiration`,
signs with HS256 under the manager's secret. -/
def Manager.GenerateToken (m : Manager) (now : Nat) (c : ClaimsIn) : Token :=
  signToken m.secret .HS256 ⟨c.user_id, c.email, c.role, c.sub, now, now + m.expiration⟩

/-- `Manager.ValidateToken`.  golang-jwt v5 order: the keyfunc rejects a
non-HMAC method (mapped to `ErrInvalidToken`), then the signature is
verified (failure mapped to `ErrInvalidToken`), then claims are
validated — only an expiry failure surfaces as `ErrExpiredToken`.  A
token is expired when `now` is not before `exp`. -/
def Manager.ValidateToken (m : Manager) (now : Nat) (t : Token) : Except JwtError Payload :=
  if ¬ t.alg.isHMAC then .error .invalidToken
  else if t.sig ≠ (⟨m.secret, t.payload, t.alg⟩ : Sig) then .error .invalidToken
  else if t.payload.exp ≤ now then .error .expiredToken
  else .ok t.payload

/-- `Manager.GenerateRefreshToken(email)`: `RegisteredClaims` with
`Subject := email`, 7-day expiry, signed with `secret + "-refresh"`. -/
def Manager.GenerateRefreshToken (m : Manager) (now : Nat) (email : String) : Token :=
  signToken (m.secret ++ "-refresh") .HS256 ⟨"", "", "", email, now, now + 7 * 24 * 60 * 60⟩

/-- `Manager.ValidateRefreshToken`: same parse but keyed with
`secret + "-refresh"`; returns the subject. -/
def Manager.ValidateRefreshToken (m : Manager) (now : Nat) (t : Token) :
    Except JwtError String :=
  if ¬ t.alg.isHMAC then .error .invalidToken
  else if t.sig ≠ (⟨m.secret ++ "-refresh", t.payload, t.alg⟩ : Sig) then .error .invalidToken
  else if t.payload.exp ≤ now then .error .expiredToken
  else .ok t.payload.sub

/-! ## Auth middleware (internal/middleware/auth.go) -/

/-- Outcome of `AuthMiddleware` on one request: a 401 with the given
error message, or the request proceeds with `user_id`, `user_role`,
`user_email` set in the gin context. -/
inductive AuthOutcome where
  | unauthorized (msg : String)
  | proceed (user_id user_role user_email : String)
deriving DecidableEq, Repr

/-- `AuthMiddleware`: requires an `Authorization` header of the shape
`Bearer <token>`, validates the token, and on success stores the claims
in the context.  Every validation error is answered with the one generic
message `"Invalid or expired token"`. -/
def authMiddleware (m : Manager) (now : Nat) (authHeader : Option (String × Token)) :
    AuthOutcome :=
  match authHeader with
  | none => .unauthorized "Authorization header is required"
  | some (scheme, tok) =>
    if scheme ≠ "Bearer" then .unauthorized "Invalid authorization format"
    else
      match m.ValidateToken now tok with
      | .error _ => .unauthorized "Invalid or expired token"
      | .ok claims => .proceed claims.user_id claims.role claims.email

/-! ## Refresh endpoint (internal/handlers/auth.go, RefreshTokenHandler) -/

/-- Outcome of `RefreshTokenHandler`: 400 on an unparseable body, 401 on
a rejected refresh token, else 200 with the freshly generated access
token. -/
inductive RefreshOutcome where
  | badRequest (msg : String)
  | unauthorized (msg : String)
  | ok (accessToken : Token) (tokenType : String)
deriving DecidableEq, Repr

/-- `RefreshTokenHandler`: validates the posted refresh token and then
generates a new access token with the hard-coded
`UserID: "user-id-from-db"`, `Email: <subject>`, `Role: "patient"`. -/
def refreshTokenHandler (m : Manager) (now : Nat) (body : Option Token) : RefreshOutcome :=
  match body with
  | none => .badRequest "Invalid request body"
  | some rt =>
    match m.ValidateRefreshToken now rt with
    | .error _ => .unauthorized "Invalid refresh token"
    | .ok email => .ok (m.GenerateToken now ⟨"user-id-from-db", email, "patient", ""⟩) "Bearer"

/-! ## Shared counter store (internal/cache/redis_client.go)

The Redis counter store, as the rate-limit middleware uses it: `INCR`
(atomic increment, creating the counter at 1) and `EXPIRE`.  A counter
whose expiry has passed is gone; a counter with no expiry set persists.
`reachable = false` makes every call return an error. -/

/-- Association-list lookup used by the store model. -/
def alookup (l : List (String × Nat)) (k : String) : Option Nat :=
  (l.find? (fun p => p.1 == k)).map Prod.snd

/-- Association-list update used by the store model. -/
def aupdate (l : List (String × Nat)) (k : String) (v : Nat) : List (String × Nat) :=
  l.filter (fun p => p.1 != k) ++ [(k, v)]

/-- The shared counter store: reachability flag, counters, absolute
expiry time per key. -/
structure Store where
  reachable : Bool
  counters : List (String × Nat)
  expiry : List (String × Nat)
deriving DecidableEq, Repr

/-- `RedisClient.Increment` at wall-clock `now`: `none` models the error
return when the store is unreachable; otherwise the post-increment count
and the new store.  An expired counter restarts from zero with its stale
expiry dropped. -/
def Store.incr (s : Store) (now : Nat) (k : String) : Option (Nat × Store) :=
  if s.reachable then
    let alive :=
      match alookup s.expiry k with
      | some e => decide (now < e)
      | none => true
    let cur := if alive then (alookup s.counters k).getD 0 else 0
    let count := cur + 1
    some (count,
      { s with counters := aupdate s.counters k count,
               expiry := if alive then s.expiry else s.expiry.filter (fun p => p.1 != k) })
  else none

/-- `RedisClient.Expire(key, window)` at wall-clock `now`. -/
def Store.expire (s : Store) (now window : Nat) (k : String) : Store :=
  { s with expiry := aupdate s.expiry k (now + window) }

/-- Seconds left until the key's counter expires (the remaining window
time a retry-after would report). -/
def remainingWindow (s : Store) (now : Nat) (k : String) : Nat :=
  ((alookup s.expiry k).getD now) - now

/-! ## Rate-limit middleware (internal/middleware/rate_limit.go) -/

/-- Outcome of one rate-limit middleware invocation: the request passes
to the next stage, or a 429 JSON response with the given `error` message
and optional `retry_after` field. -/
inductive RLOutcome where
  | next
  | reject (msg : String) (retryAfter : Option Nat)
deriving DecidableEq, Repr

/-- `fallbackRateLimit`: builds a fresh
`rate.NewLimiter(rate.Limit(requestsPerMinute)/60, burst)` (initial
tokens = burst) and calls `Allow()` once, so the request passes exactly
when `burst ≥ 1`; otherwise 429 with message
"Rate limit exceeded (fallback)" and no `retry_after` field. -/
def fallbackRateLimit (requestsPerMinute burst : Nat) : RLOutcome :=
  if 1 ≤ burst then .next else .reject "Rate limit exceeded (fallback)" none

/-- `RateLimitMiddleware` (IP-scoped): key `"rate_limit:" + clientIP`
(empty IP becomes "unknown"); on an increment error it degrades to
`fallbackRateLimit`; a post-increment count of 1 sets a 60s expiry;
a count above the limit is a 429 with `retry_after: 60`. -/
def rateLimitMiddleware (s : Store) (now : Nat) (clientIP : String)
    (requestsPerMinute burst : Nat) : RLOutcome × Store :=
  let ip := if clientIP = "" then "unknown" else clientIP
  let key := "rate_limit:" ++ ip
  match s.incr now key with
  | none => (fallbackRateLimit requestsPerMinute burst, s)
  | some (count, s1) =>
    let s2 := if count = 1 then s1.expire now 60 key else s1
    if requestsPerMinute < count then (.reject "Rate limit exceeded" (some 60), s2)
    else (.next, s2)

/-- `UserRateLimitMiddleware`: without an authenticated `user_id` it runs
the IP middleware; with one it uses key `"rate_limit:user:" + userID`,
and on an increment error it calls `c.Next()` directly — the request is
allowed with no fallback limiter consulted. -/
def userRateLimitMiddleware (s : Store) (now : Nat) (clientIP : String)
    (ctxUserId : Option String) (requestsPerMinute burst : Nat) : RLOutcome × Store :=
  match ctxUserId with
  | none => rateLimitMiddleware s now clientIP requestsPerMinute burst
  | some uid =>
    let key := "rate_limit:user:" ++ uid
    match s.incr now key with
    | none => (.next, s)
    | some (count, s1) =>
      let s2 := if count = 1 then s1.expire now 60 key else s1
      if requestsPerMinute < count then (.reject "User rate limit exceeded" none, s2)
      else (.next, s2)

/-- `EndpointRateLimitMiddleware`: key
`"rate_limit:" + endpoint + ":" + clientIP`; on an increment error it
calls `c.Next()` directly, allowing the request. -/
def endpointRateLimitMiddleware (s : Store) (now : Nat) (clientIP endpoint : String)
    (requestsPerMinute : Nat) : RLOutcome × Store :=
  let key := "rate_limit:" ++ endpoint ++ ":" ++ clientIP
  match s.incr now key with
  | none => (.next, s)
  | some (count, s1) =>
    let s2 := if count = 1 then s1.expire now 60 key else s1
    if requestsPerMinute < count then (.reject "Endpoint rate limit exceeded" (some 60), s2)
    else (.next, s2)

/-- A sequence of requests through the IP-scoped middleware, one at each
listed wall-clock time, threading the store. -/
def runIP (s : Store) (times : List Nat) (clientIP : String)
    (requestsPerMinute burst : Nat) : List RLOutcome × Store :=
  match times with
  | [] => ([], s)
  | t :: ts =>
    let (o, s1) := rateLimitMiddleware s t clientIP requestsPerMinute burst
    let (os, s2) := runIP s1 ts clientIP requestsPerMinute burst
    (o :: os, s2)

/-! ## Patients list handler (internal/handlers/patients.go) -/

/-- `PatientSearchRequest`, the query-bound search/pagination form. -/
structure PatientSearchRequest where
  query : String
  firstName : String
  lastName : String
  email : String
  phone : String
  page : Int
  perPage : Int
  sortBy : String
  sortOrder : String
deriving DecidableEq, Repr

/-- First value bound to a query key (Go `url.Values.Get`). -/
def getFirst (ps : List (String × String)) (k : String) : Option String :=
  (ps.find? (fun p => p.1 == k)).map Prod.snd

/-- Decimal digits of an integer literal, most significant first
(helper for the `strconv` model). -/
def parseNatDigits : List Char → Nat → Option Nat
  | [], acc => some acc
  | c :: rest, acc =>
    if c.isDigit then parseNatDigits rest (acc * 10 + (c.toNat - 48)) else none

/-- Go `strconv.ParseInt` base 10 on the query value: an optional sign
followed by at least one digit, nothing else. -/
def strconvAtoi (s : String) : Option Int :=
  match s.data with
  | [] => none
  | c :: rest =>
    if c = '-' then
      match rest with
      | [] => none
      | _ => (parseNatDigits rest 0).map (fun n => -(n : Int))
    else if c = '+' then
      match rest with
      | [] => none
      | _ => (parseNatDigits rest 0).map (fun n => (n : Int))
    else (parseNatDigits s.data 0).map (fun n => (n : Int))

/-- gin `form` binding of an integer field with a `default` tag: absent
or empty uses the default; anything else must parse as an integer or the
bind fails. -/
def bindIntField (ps : List (String × String)) (k : String) (dflt : Int) : Option Int :=
  match getFirst ps k with
  | none => some dflt
  | some v => if v = "" then some dflt else strconvAtoi v

/-- gin `form` binding of a string field: absent or empty uses the
default ("" for the filter fields). -/
def bindStrField (ps : List (String × String)) (k dflt : String) : String :=
  match getFirst ps k with
  | none => dflt
  | some v => if v = "" then dflt else v

/-- `c.ShouldBindQuery(&searchReq)`: `none` is the bind error answered
with 400 "Invalid query parameters". -/
def bindQuery (ps : List (String × String)) : Option PatientSearchRequest :=
  match bindIntField ps "page" 1, bindIntField ps "per_page" 20 with
  | some page, some perPage =>
    some { query := bindStrField ps "query" "",
           firstName := bindStrField ps "first_name" "",
           lastName := bindStrField ps "last_name" "",
           email := bindStrField ps "email" "",
           phone := bindStrField ps "phone" "",
           page := page, perPage := perPage,
           sortBy := bindStrField ps "sort_by" "created_at",
           sortOrder := bindStrField ps "sort_order" "desc" }
  | _, _ => none

/-- The handler's "Validate query parameters" step: clamps `page` to 1,
`per_page` to 20 outside [1,100], `sort_order` to "desc" when neither
"asc" nor "desc". -/
def normalizeSearchRequest (r : PatientSearchRequest) : PatientSearchRequest :=
  let r1 := if r.page < 1 then { r with page := 1 } else r
  let r2 := if r1.perPage < 1 ∨ 100 < r1.perPage then { r1 with perPage := 20 } else r1
  if r2.sortOrder ≠ "asc" ∧ r2.sortOrder ≠ "desc" then { r2 with sortOrder := "desc" } else r2

/-- The `GetPatients` cache key:
`patients:list:page:%d:per_page:%d:sort:%s:%s` with `:query:`,
`:first_name:` and `:last_name:` appended for non-empty filters.  The
source appends nothing for `email` or `phone`. -/
def patientsListCacheKey (r : PatientSearchRequest) : String :=
  let key := "patients:list:page:" ++ toString r.page ++ ":per_page:" ++ toString r.perPage
    ++ ":sort:" ++ r.sortBy ++ ":" ++ r.sortOrder
  let key := if r.query ≠ "" then key ++ ":query:" ++ r.query else key
  let key := if r.firstName ≠ "" then key ++ ":first_name:" ++ r.firstName else key
  if r.lastName ≠ "" then key ++ ":last_name:" ++ r.lastName else key

/-- The query parameters `GetPatients` forwards upstream (the `q.Add`
calls; `q.Encode()` orders keys alphabetically, which is how they are
listed here). -/
def upstreamQuery (r : PatientSearchRequest) : List (String × String) :=
  (if r.email ≠ "" then [("email", r.email)] else []) ++
  (if r.firstName ≠ "" then [("first_name", r.firstName)] else []) ++
  (if r.lastName ≠ "" then [("last_name", r.lastName)] else []) ++
  [("page", toString r.page), ("per_page", toString r.perPage)] ++
  (if r.phone ≠ "" then [("phone", r.phone)] else []) ++
  (if r.query ≠ "" then [("query", r.query)] else []) ++
  [("sort_by", r.sortBy), ("sort_order", r.sortOrder)]

/-- Outcome of `GetPatients` up to the upstream call: a local 400, a
cached response served under the computed key, or a forward carrying the
upstream query parameters. -/
inductive GetPatientsOutcome where
  | badRequest (msg : String)
  | cacheHit (key : String)
  | forward (query : List (String × String)) (key : String)
deriving DecidableEq, Repr

/-- `GetPatients`: bind the query (400 on failure), normalize, compute
the cache key, serve from cache on a hit, otherwise forward upstream.
`cachedKeys` lists the keys the response cache currently holds. -/
def getPatients (cachedKeys : List String) (ps : List (String × String)) :
    GetPatientsOutcome :=
  match bindQuery ps with
  | none => .badRequest "Invalid query parameters"
  | some r0 =>
    let r := normalizeSearchRequest r0
    let key := patientsListCacheKey r
    if key ∈ cachedKeys then .cacheHit key
    else .forward (upstreamQuery r) key

/-! ## Patient creation and cache invalidation (CreatePatient) -/

/-- Result of the upstream `httpClient.Do` call in `CreatePatient`. -/
inductive UpstreamResult where
  | failure
  | response (status : Nat) (body : String)
deriving DecidableEq, Repr

/-- One observable effect of `CreatePatient`, in program order. -/
inductive Event where
  | forwardUpstream
  | cacheDeleteByPrefix (pre : String) (failed : Bool)
  | respond (status : Nat) (body : String)
deriving DecidableEq, Repr

/-- `clearPatientListCache`: `DeleteByPrefix("patients:list:")` with its
error logged, then `DeleteByPrefix("patients:search:")` with its error
ignored; neither failure escapes. -/
def clearPatientListCache (listDelFails searchDelFails : Bool) : List Event :=
  [.cacheDeleteByPrefix "patients:list:" listDelFails,
   .cacheDeleteByPrefix "patients:search:" searchDelFails]

/-- `CreatePatient` as its trace of effects: 401 without a context
`user_id`, 400 on a bind or validation failure, 502 on a transport
failure, otherwise the upstream response is relayed — after
`clearPatientListCache` runs when the upstream status was 201. -/
def createPatient (ctxUserId : Option String) (bindOk validOk : Bool)
    (upstream : UpstreamResult) (listDelFails searchDelFails : Bool) : List Event :=
  match ctxUserId with
  | none => [.respond 401 "Authentication required"]
  | some _ =>
    if ¬ bindOk then [.respond 400 "Invalid request body"]
    else if ¬ validOk then [.respond 400 "Validation failed"]
    else
      match upstream with
      | .failure => [.forwardUpstream, .respond 502 "Backend service unavailable"]
      | .response st body =>
        .forwardUpstream ::
          ((if st = 201 then clearPatientListCache listDelFails searchDelFails else []) ++
            [.respond st body])

/-! ## Theorems: token service -/

/-- A string never equals itself with the non-empty suffix "-refresh"
appended: the access secret and the refresh secret always differ. -/
theorem secret_ne_refresh (s : String) : s ≠ s ++ "-refresh" := by
  intro h
  have hl := congrArg String.length h
  simp [String.length_append] at hl
  exact absurd hl (by decide)

/-- C7: a refresh token (signed with `secret + "-refresh"`) is rejected
by the access-token validator, and an access token (signed with
`secret`) is rejected by the refresh-token validator, at every
validation time, because the two signing secrets differ. -/
theorem tokenKindsCrossRejected (m : Manager) (tIssR tValR tIssA tValA : Nat)
    (subject : String) (c : ClaimsIn) :
    m.ValidateToken tValR (m.GenerateRefreshToken tIssR subject) = .error .invalidToken ∧
    m.ValidateRefreshToken tValA (m.GenerateToken tIssA c) = .error .invalidToken := by
  have hne : m.secret ++ "-refresh" ≠ m.secret := fun h => secret_ne_refresh m.secret h.symm
  constructor
  · simp [Manager.ValidateToken, Manager.GenerateRefreshToken, signToken, Alg.isHMAC,
      Sig.mk.injEq, hne]
  · simp [Manager.ValidateRefreshToken, Manager.GenerateToken, signToken, Alg.isHMAC,
      Sig.mk.injEq]
    intro h
    exact absurd h (secret_ne_refresh m.secret)

/-- C8: validating a freshly issued access token before its TTL has
elapsed succeeds and returns exactly the issued user id, email and role
(the whole payload round-trips). -/
theorem validateGenerateRoundtrip (m : Manager) (now t : Nat) (c : ClaimsIn)
    (h : t < now + m.expiration) :
    m.ValidateToken t (m.GenerateToken now c) =
      .ok ⟨c.user_id, c.email, c.role, c.sub, now, now + m.expiration⟩ := by
  simp [Manager.ValidateToken, Manager.GenerateToken, signToken, Alg.isHMAC, Nat.not_le.mpr h]

/-- C8 witness: the round-trip at a concrete manager, clock and claims. -/
theorem validateGenerateRoundtrip_witness :
    (Manager.mk "server-secret" 3600).ValidateToken 10
        ((Manager.mk "server-secret" 3600).GenerateToken 0
          ⟨"demo-user-123", "demo@nightingale.com", "patient", ""⟩) =
      .ok ⟨"demo-user-123", "demo@nightingale.com", "patient", "", 0, 0 + 3600⟩ :=
  validateGenerateRoundtrip ⟨"server-secret", 3600⟩ 0 10
    ⟨"demo-user-123", "demo@nightingale.com", "patient", ""⟩ (by decide)

/-- C4 (amended): once the TTL has elapsed, `ValidateToken` returns
`ErrExpiredToken`, which is distinct from `ErrInvalidToken`; but the
auth middleware answers the protected route with the one generic 401
message "Invalid or expired token", not with "token has expired". -/
theorem expiredTokenDistinctError (m : Manager) (now t : Nat) (c : ClaimsIn)
    (h : now + m.expiration ≤ t) :
    m.ValidateToken t (m.GenerateToken now c) = .error .expiredToken ∧
    JwtError.expiredToken ≠ JwtError.invalidToken ∧
    authMiddleware m t (some ("Bearer", m.GenerateToken now c)) =
      .unauthorized "Invalid or expired token" := by
  have hv : m.ValidateToken t (m.GenerateToken now c) = .error .expiredToken := by
    simp [Manager.ValidateToken, Manager.GenerateToken, signToken, Alg.isHMAC, h]
  refine ⟨hv, by simp, ?_⟩
  simp [authMiddleware, hv]

/-- C4 witness: a concrete token validated exactly at its expiry time. -/
theorem expiredTokenDistinctError_witness :
    (Manager.mk "server-secret" 3600).ValidateToken 3600
        ((Manager.mk "server-secret" 3600).GenerateToken 0
          ⟨"demo-user-123", "demo@nightingale.com", "patient", ""⟩) = .error .expiredToken ∧
    JwtError.expiredToken ≠ JwtError.invalidToken ∧
    authMiddleware (Manager.mk "server-secret" 3600) 3600
        (some ("Bearer", (Manager.mk "server-secret" 3600).GenerateToken 0
          ⟨"demo-user-123", "demo@nightingale.com", "patient", ""⟩)) =
      .unauthorized "Invalid or expired token" :=
  expiredTokenDistinctError ⟨"server-secret", 3600⟩ 0 3600
    ⟨"demo-user-123", "demo@nightingale.com", "patient", ""⟩ (by decide)

/-- C4 counterexample: an expired but correctly signed token is answered
with the generic 401 message "Invalid or expired token", which is not
the claimed reason "token has expired". -/
theorem expiredTokenGeneric401Message :
    authMiddleware (Manager.mk "server-secret" 3600) 3600
        (some ("Bearer", (Manager.mk "server-secret" 3600).GenerateToken 0
          ⟨"demo-user-123", "demo@nightingale.com", "patient", ""⟩)) =
      .unauthorized "Invalid or expired token" ∧
    "Invalid or expired token" ≠ "token has expired" := by
  constructor
  · simp [authMiddleware, Manager.ValidateToken, Manager.GenerateToken, signToken, Alg.isHMAC]
  · decide

/-- C10: for every refresh token the refresh validator accepts with
subject `s`, the refresh endpoint answers 200 with a new access token
whose claims are the constant user id "user-id-from-db", email `s`, and
the constant role "patient". -/
theorem refreshReissuesFixedIdentity (m : Manager) (now : Nat) (rt : Token) (s : String)
    (h : m.ValidateRefreshToken now rt = .ok s) :
    refreshTokenHandler m now (some rt) =
      .ok (m.GenerateToken now ⟨"user-id-from-db", s, "patient", ""⟩) "Bearer" ∧
    (m.GenerateToken now ⟨"user-id-from-db", s, "patient", ""⟩).payload.user_id
      = "user-id-from-db" ∧
    (m.GenerateToken now ⟨"user-id-from-db", s, "patient", ""⟩).payload.email = s ∧
    (m.GenerateToken now ⟨"user-id-from-db", s, "patient", ""⟩).payload.role = "patient" := by
  refine ⟨?_, rfl, rfl, rfl⟩
  simp [refreshTokenHandler, h]

/-- C10 witness: a concrete refresh token issued for
"demo@nightingale.com" and redeemed at time 100. -/
theorem refreshReissuesFixedIdentity_witness :
    refreshTokenHandler (Manager.mk "server-secret" 3600) 100
        (some ((Manager.mk "server-secret" 3600).GenerateRefreshToken 0
          "demo@nightingale.com")) =
      .ok ((Manager.mk "server-secret" 3600).GenerateToken 100
        ⟨"user-id-from-db", "demo@nightingale.com", "patient", ""⟩) "Bearer" ∧
    ((Manager.mk "server-secret" 3600).GenerateToken 100
        ⟨"user-id-from-db", "demo@nightingale.com", "patient", ""⟩).payload.user_id
      = "user-id-from-db" ∧
    ((Manager.mk "server-secret" 3600).GenerateToken 100
        ⟨"user-id-from-db", "demo@nightingale.com", "patient", ""⟩).payload.email
      = "demo@nightingale.com" ∧
    ((Manager.mk "server-secret" 3600).GenerateToken 100
        ⟨"user-id-from-db", "demo@nightingale.com", "patient", ""⟩).payload.role
      = "patient" :=
  refreshReissuesFixedIdentity ⟨"server-secret", 3600⟩ 100
    ((Manager.mk "server-secret" 3600).GenerateRefreshToken 0 "demo@nightingale.com")
    "demo@nightingale.com" (by rfl)

/-! ## Theorems: forwarding headers -/

/-- The nested copy loop appends the source entries to the destination. -/
theorem copyHeaders_eq (dst src : Headers) : copyHeaders dst src = dst ++ src := by
  induction src generalizing dst with
  | nil => simp [copyHeaders]
  | cons p src ih =>
    simp only [copyHeaders, List.foldl_cons] at *
    rw [show headerAdd dst p.1 p.2 = dst ++ [p] by simp [headerAdd]]
    rw [ih]
    simp

/-- Entries surviving a filter away from key `k` contribute nothing to a
filter for key `k`. -/
theorem filter_ne_then_eq (k : String) (h : Headers) :
    (h.filter (fun p => p.1 != k)).filter (fun p => p.1 == k) = [] := by
  induction h with
  | nil => rfl
  | cons p t ih =>
    by_cases hp : p.1 = k
    · simp [List.filter_cons, hp, ih]
    · simp [List.filter_cons, hp, ih]

/-- Go `Header.Set` followed by `Header.Values` of the same key yields
exactly the one value set. -/
theorem headerValues_set_self (k v : String) (h : Headers) :
    headerValues (headerSet h k v) k = [v] := by
  simp [headerValues, headerSet, List.filter_append, filter_ne_then_eq]

/-- Filtering for key `k` ignores a prior filter away from a different
key `k'`. -/
theorem filter_ne_other (k k' : String) (hk : k ≠ k') (h : Headers) :
    (h.filter (fun p => p.1 != k')).filter (fun p => p.1 == k)
      = h.filter (fun p => p.1 == k) := by
  induction h with
  | nil => rfl
  | cons p t ih =>
    by_cases hp : p.1 = k'
    · have hpk : p.1 ≠ k := by rw [hp]; exact fun hh => hk hh.symm
      have hk2 : ¬ k' = k := fun hh => hk hh.symm
      simp [List.filter_cons, hp, hpk, ih, hk2]
    · simp [List.filter_cons, hp, ih]

/-- Go `Header.Set` of a different key leaves `Header.Values` of key `k`
unchanged. -/
theorem headerValues_set_ne (k k' : String) (hk : k ≠ k') (v : String) (h : Headers) :
    headerValues (headerSet h k' v) k = headerValues h k := by
  have hk2 : ¬ k' = k := fun hh => hk hh.symm
  simp [headerValues, headerSet, List.filter_append, filter_ne_other k k' hk, hk2]

/-- C1 (amended): with an authenticated caller, the reverse-proxy path
overlays both `X-User-Id` and `X-User-Role` from the validated claims no
matter what identity headers the client sent; the direct forwarding path
(`ForwardRequest`) overlays only `X-User-Id` — its outbound
`X-User-Role` is exactly whatever the client supplied inbound. -/
theorem identityOverlayHeaders (inbound : Headers) (ip host uid role : String)
    (rid : Option String) :
    headerValues (reverseProxyHeaders inbound ip host (some uid) (some role) rid)
      "X-User-Id" = [uid] ∧
    headerValues (reverseProxyHeaders inbound ip host (some uid) (some role) rid)
      "X-User-Role" = [role] ∧
    headerValues (forwardRequestHeaders inbound (some uid)) "X-User-Id" = [uid] ∧
    headerValues (forwardRequestHeaders inbound (some uid)) "X-User-Role"
      = headerValues inbound "X-User-Role" := by
  refine ⟨?_, ?_, ?_, ?_⟩
  · cases rid with
    | none =>
      simp only [reverseProxyHeaders]
      rw [headerValues_set_ne "X-User-Id" "X-User-Role" (by decide), headerValues_set_self]
    | some r =>
      simp only [reverseProxyHeaders]
      rw [headerValues_set_ne "X-User-Id" "X-Request-Id" (by decide),
        headerValues_set_ne "X-User-Id" "X-User-Role" (by decide), headerValues_set_self]
  · cases rid with
    | none =>
      simp only [reverseProxyHeaders]
      rw [headerValues_set_self]
    | some r =>
      simp only [reverseProxyHeaders]
      rw [headerValues_set_ne "X-User-Role" "X-Request-Id" (by decide), headerValues_set_self]
  · simp only [forwardRequestHeaders]
    rw [headerValues_set_self]
  · simp only [forwardRequestHeaders]
    rw [headerValues_set_ne "X-User-Role" "X-User-Id" (by decide), copyHeaders_eq]
    simp

/-- C1 counterexample: on the direct forwarding path, two authenticated
requests differing only in the client-supplied `X-User-Role` header
produce different outbound `X-User-Role` values — the client-sent role
"admin" reaches upstream untouched. -/
theorem forwardRequestRoleSpoofable :
    headerValues (forwardRequestHeaders [("X-User-Role", "admin")] (some "demo-user-123"))
      "X-User-Role" = ["admin"] ∧
    headerValues (forwardRequestHeaders [] (some "demo-user-123")) "X-User-Role" = [] ∧
    (["admin"] : List String) ≠ [] := by decide

/-! ## Theorems: patients handlers and response cache -/

/-- C5: a `POST /patients` whose upstream call returned 201 Created runs
`DeleteByPrefix` for both the "patients:list:" and "patients:search:"
key families before the success response is written, and a failure of
either deletion leaves the relayed response unchanged. -/
theorem createPatientInvalidatesBeforeResponse (uid body : String)
    (listDelFails searchDelFails : Bool) :
    createPatient (some uid) true true (.response 201 body) listDelFails searchDelFails =
      [.forwardUpstream,
       .cacheDeleteByPrefix "patients:list:" listDelFails,
       .cacheDeleteByPrefix "patients:search:" searchDelFails,
       .respond 201 body] := by
  simp [createPatient, clearPatientListCache]

/-- C2 (code-bug evidence): two patient-list requests that differ only
in the `email` filter — which the handler forwards upstream, so it
affects the result — get the same cache key; once the first response is
cached, the second request is served from the cache under that key even
though its upstream query differs. -/
theorem patientsCacheKeyIgnoresEmailFilter :
    getPatients [] [("email", "alice@example.com")] =
      .forward [("email", "alice@example.com"), ("page", "1"), ("per_page", "20"),
        ("sort_by", "created_at"), ("sort_order", "desc")]
        "patients:list:page:1:per_page:20:sort:created_at:desc" ∧
    getPatients [] [("email", "bob@example.com")] =
      .forward [("email", "bob@example.com"), ("page", "1"), ("per_page", "20"),
        ("sort_by", "created_at"), ("sort_order", "desc")]
        "patients:list:page:1:per_page:20:sort:created_at:desc" ∧
    ([("email", "alice@example.com"), ("page", "1"), ("per_page", "20"),
        ("sort_by", "created_at"), ("sort_order", "desc")] : List (String × String)) ≠
      [("email", "bob@example.com"), ("page", "1"), ("per_page", "20"),
        ("sort_by", "created_at"), ("sort_order", "desc")] ∧
    getPatients ["patients:list:page:1:per_page:20:sort:created_at:desc"]
        [("email", "bob@example.com")] =
      .cacheHit "patients:list:page:1:per_page:20:sort:created_at:desc" := by
  refine ⟨by rfl, by rfl, by decide, by rfl⟩

/-- C9 (amended): a syntactically malformed pagination parameter fails
the query bind and is answered 400 locally, never reaching upstream; an
out-of-range numeric value is not rejected but clamped (`page` below 1
becomes 1, `per_page` outside [1,100] becomes 20) and the request is
forwarded upstream. -/
theorem paginationValidationAmended (cachedKeys : List String)
    (ps1 ps2 : List (String × String)) (r : PatientSearchRequest)
    (h1 : bindQuery ps1 = none)
    (h2 : bindQuery ps2 = some r) (hp : r.page < 1)
    (hc : patientsListCacheKey (normalizeSearchRequest r) ∉ cachedKeys) :
    getPatients cachedKeys ps1 = .badRequest "Invalid query parameters" ∧
    (normalizeSearchRequest r).page = 1 ∧
    (normalizeSearchRequest r).perPage =
      (if r.perPage < 1 ∨ 100 < r.perPage then 20 else r.perPage) ∧
    getPatients cachedKeys ps2 =
      .forward (upstreamQuery (normalizeSearchRequest r))
        (patientsListCacheKey (normalizeSearchRequest r)) := by
  refine ⟨by simp [getPatients, h1], ?_, ?_, by simp [getPatients, h2, hc]⟩
  · simp only [normalizeSearchRequest, if_pos hp]
    split
    · split <;> rfl
    · split <;> rfl
  · simp only [normalizeSearchRequest, if_pos hp]
    split
    · rename_i hcond
      split <;> simp [if_pos hcond]
    · rename_i hcond
      split <;> simp [if_neg hcond]

/-- C9 witness: `page=abc` fails the bind and gets the local 400;
`page=0` binds to 0, is clamped to 1, and is forwarded upstream. -/
theorem paginationValidationAmended_witness :
    getPatients [] [("page", "abc")] = .badRequest "Invalid query parameters" ∧
    (normalizeSearchRequest ⟨"", "", "", "", "", 0, 20, "created_at", "desc"⟩).page = 1 ∧
    (normalizeSearchRequest ⟨"", "", "", "", "", 0, 20, "created_at", "desc"⟩).perPage =
      (if (20 : Int) < 1 ∨ 100 < (20 : Int) then 20 else 20) ∧
    getPatients [] [("page", "0")] =
      .forward
        (upstreamQuery (normalizeSearchRequest ⟨"", "", "", "", "", 0, 20, "created_at", "desc"⟩))
        (patientsListCacheKey
          (normalizeSearchRequest ⟨"", "", "", "", "", 0, 20, "created_at", "desc"⟩)) :=
  paginationValidationAmended [] [("page", "abc")] [("page", "0")]
    ⟨"", "", "", "", "", 0, 20, "created_at", "desc"⟩ (by rfl) (by rfl) (by decide)
    (by simp)

/-- C9 counterexample: the request `page=0&per_page=1000` carries
pagination values outside the accepted range, yet the gateway does not
answer 400 — it clamps them and forwards the request upstream. -/
theorem outOfRangePageForwarded :
    getPatients [] [("page", "0"), ("per_page", "1000")] =
      .forward [("page", "1"), ("per_page", "20"), ("sort_by", "created_at"),
        ("sort_order", "desc")]
        "patients:list:page:1:per_page:20:sort:created_at:desc" := by rfl

/-! ## Theorems: rate limiting -/

/-- C6 (amended): when the shared counter store returns an error, no
variant fails the request with a 500: the IP-scoped middleware degrades
to the process-local token bucket (`fallbackRateLimit`, a fresh
per-request bucket, not one keyed per identity), while the user-scoped
and endpoint-scoped middlewares allow the request unconditionally
without consulting any fallback limiter. -/
theorem storeErrorNever500 (s : Store) (now : Nat) (ip uid ep : String)
    (rpm burst : Nat) (h : s.reachable = false) :
    (rateLimitMiddleware s now ip rpm burst).1 = fallbackRateLimit rpm burst ∧
    (userRateLimitMiddleware s now ip (some uid) rpm burst).1 = .next ∧
    (endpointRateLimitMiddleware s now ip ep rpm).1 = .next := by
  have hincr : ∀ (t : Nat) (k : String), s.incr t k = none := by
    intro t k
    simp [Store.incr, h]
  refine ⟨?_, ?_, ?_⟩ <;>
    simp [rateLimitMiddleware, userRateLimitMiddleware, endpointRateLimitMiddleware, hincr]

/-- C6 witness: a concrete unreachable store. -/
theorem storeErrorNever500_witness :
    (rateLimitMiddleware ⟨false, [], []⟩ 0 "1.2.3.4" 60 10).1 = fallbackRateLimit 60 10 ∧
    (userRateLimitMiddleware ⟨false, [], []⟩ 0 "1.2.3.4" (some "demo-user-123") 60 10).1
      = .next ∧
    (endpointRateLimitMiddleware ⟨false, [], []⟩ 0 "1.2.3.4" "/api/v1/patients" 60).1
      = .next :=
  storeErrorNever500 ⟨false, [], []⟩ 0 "1.2.3.4" "demo-user-123" "/api/v1/patients" 60 10 rfl

/-- C6 counterexample: with burst 0 and the store erroring, the local
token bucket would reject (as the IP-scoped middleware does), but the
user-scoped and endpoint-scoped middlewares allow the request outright —
they do not degrade to a token-bucket limiter. -/
theorem userRateLimitAllowsOnStoreError :
    (userRateLimitMiddleware ⟨false, [], []⟩ 0 "1.2.3.4" (some "demo-user-123") 60 0).1
      = .next ∧
    (endpointRateLimitMiddleware ⟨false, [], []⟩ 0 "1.2.3.4" "/api/v1/patients" 60).1
      = .next ∧
    fallbackRateLimit 60 0 = .reject "Rate limit exceeded (fallback)" none ∧
    (rateLimitMiddleware ⟨false, [], []⟩ 0 "1.2.3.4" 60 0).1
      = .reject "Rate limit exceeded (fallback)" none ∧
    RLOutcome.next ≠ .reject "Rate limit exceeded (fallback)" none := by
  refine ⟨by rfl, by rfl, by rfl, by rfl, by decide⟩

/-- One IP-scoped check against a fresh store: the counter is created at
1 and its expiry set to one window (60s) from now. -/
theorem rateLimit_step_fresh (ip : String) (hip : ¬ ip = "") (t rpm burst : Nat) :
    rateLimitMiddleware ⟨true, [], []⟩ t ip rpm burst =
      ((if rpm < 1 then .reject "Rate limit exceeded" (some 60) else .next),
       ⟨true, [("rate_limit:" ++ ip, 1)], [("rate_limit:" ++ ip, t + 60)]⟩) := by
  simp [rateLimitMiddleware, Store.incr, Store.expire, alookup, aupdate, hip]
  split <;> rfl

/-- One IP-scoped check within the live window of an existing counter:
the count goes up by one, the expiry is untouched, and the request is
rejected exactly when the new count exceeds the limit. -/
theorem rateLimit_step_counted (ip : String) (hip : ¬ ip = "") (t e k rpm burst : Nat)
    (hk : 1 ≤ k) (ht : t < e) :
    rateLimitMiddleware ⟨true, [("rate_limit:" ++ ip, k)], [("rate_limit:" ++ ip, e)]⟩
        t ip rpm burst =
      ((if rpm < k + 1 then .reject "Rate limit exceeded" (some 60) else .next),
       ⟨true, [("rate_limit:" ++ ip, k + 1)], [("rate_limit:" ++ ip, e)]⟩) := by
  have hone : ¬ (k + 1 = 1) := by omega
  simp [rateLimitMiddleware, Store.incr, Store.expire, alookup, aupdate, hip, ht, hone]
  split <;> rfl

/-- Requests thread through `runIP` one list segment at a time. -/
theorem runIP_append (s : Store) (l1 l2 : List Nat) (ip : String) (rpm burst : Nat) :
    runIP s (l1 ++ l2) ip rpm burst =
      ((runIP s l1 ip rpm burst).1 ++
          (runIP (runIP s l1 ip rpm burst).2 l2 ip rpm burst).1,
        (runIP (runIP s l1 ip rpm burst).2 l2 ip rpm burst).2) := by
  induction l1 generalizing s with
  | nil => simp [runIP]
  | cons t l1 ih => simp [runIP, ih]

/-- Every further request within the live window is allowed while the
running count stays at or below the limit, and only increments the
counter. -/
theorem runIP_within_window (ip : String) (hip : ¬ ip = "") (rpm burst e : Nat)
    (ts : List Nat) :
    ∀ (k : Nat), 1 ≤ k → k + ts.length ≤ rpm → (∀ t ∈ ts, t < e) →
      runIP ⟨true, [("rate_limit:" ++ ip, k)], [("rate_limit:" ++ ip, e)]⟩ ts ip rpm burst =
        (List.replicate ts.length .next,
         ⟨true, [("rate_limit:" ++ ip, k + ts.length)], [("rate_limit:" ++ ip, e)]⟩) := by
  induction ts with
  | nil =>
    intro k hk _ _
    simp [runIP]
  | cons t ts ih =>
    intro k hk hle hin
    have ht : t < e := hin t (List.mem_cons_self t ts)
    have hcount : ¬ rpm < k + 1 := by
      simp only [List.length_cons] at hle
      omega
    have hrec := ih (k + 1) (by omega)
      (by simp only [List.length_cons] at hle; omega)
      (fun x hx => hin x (List.mem_cons_of_mem t hx))
    simp only [runIP, rateLimit_step_counted ip hip t e k rpm burst hk ht, if_neg hcount,
      hrec, List.length_cons, List.replicate_succ]
    rw [show k + (ts.length + 1) = k + 1 + ts.length from by omega]

/-- C3 (amended): against a reachable store and a fresh identity, the
first L requests inside one 60-second window all pass; request L+1
inside the window is rejected with HTTP 429 whose `retry_after` is the
constant 60 (an upper bound of, but not in general equal to, the
remaining window time); the counter's expiry is set to one window at the
first request — the one whose post-increment count is 1 — and never
re-set by the later requests. -/
theorem rateLimitWindowRun (ip : String) (rpm burst t0 tLast : Nat) (ts : List Nat)
    (hip : ¬ ip = "") (hlen : ts.length + 1 = rpm)
    (hin : ∀ t ∈ ts, t < t0 + 60) (hlast : tLast < t0 + 60) :
    runIP ⟨true, [], []⟩ (t0 :: ts ++ [tLast]) ip rpm burst =
      (List.replicate rpm .next ++ [.reject "Rate limit exceeded" (some 60)],
       ⟨true, [("rate_limit:" ++ ip, rpm + 1)], [("rate_limit:" ++ ip, t0 + 60)]⟩) := by
  have hfirst : ¬ rpm < 1 := by omega
  have hmid := runIP_within_window ip hip rpm burst (t0 + 60) ts 1 (by omega) (by omega) hin
  have hlaststep := rateLimit_step_counted ip hip tLast (t0 + 60) (1 + ts.length) rpm burst
    (by omega) hlast
  have hreject : rpm < 1 + ts.length + 1 := by omega
  simp only [runIP, rateLimit_step_fresh ip hip t0 rpm burst, if_neg hfirst,
    List.append_eq, runIP_append, hmid, hlaststep, if_pos hreject]
  rw [show 1 + ts.length + 1 = rpm + 1 from by omega,
    show rpm = ts.length + 1 from hlen.symm]
  simp [List.replicate_succ]

/-- C3 witness: limit 2, requests at seconds 0 and 10 pass, the third
at second 30 is rejected with `retry_after` 60. -/
theorem rateLimitWindowRun_witness :
    runIP ⟨true, [], []⟩ (0 :: [10] ++ [30]) "1.2.3.4" 2 5 =
      (List.replicate 2 .next ++ [.reject "Rate limit exceeded" (some 60)],
       ⟨true, [("rate_limit:" ++ "1.2.3.4", 2 + 1)], [("rate_limit:" ++ "1.2.3.4", 0 + 60)]⟩) :=
  rateLimitWindowRun "1.2.3.4" 2 5 0 30 [10] (by decide) (by decide) (by decide) (by decide)

/-- C3 counterexample: with limit 2 and requests at seconds 0, 0 and 30,
the rejection at second 30 happens with 30 seconds of the window left,
yet the response carries `retry_after` 60 — the constant full window,
not the remaining window time. -/
theorem rateLimitRetryAfterConstant :
    (runIP ⟨true, [], []⟩ [0, 0, 30] "1.2.3.4" 2 5).1 =
      [.next, .next, .reject "Rate limit exceeded" (some 60)] ∧
    remainingWindow (runIP ⟨true, [], []⟩ [0, 0] "1.2.3.4" 2 5).2 30 "rate_limit:1.2.3.4"
      = 30 ∧
    (30 : Nat) ≠ 60 := by
  refine ⟨by rfl, by rfl, by decide⟩

end Gateway
